import Mathlib

/-!
Shallow embedding of `src/app.py` (a Flask weather backend talking to the
Open-Meteo APIs).  Numbers are modelled as rationals (`ℚ`), Python dict
accesses that can raise `KeyError` as `Option` fields forced through an
`Except` monad, network calls as explicit oracle inputs, and the response
payloads as records with `Option` components (a key absent from the returned
dict is `none`).
-/

attribute [local semireducible] Rat.mul Rat.add Rat.sub Rat.inv Rat.ofScientific

namespace WeatherApp

/-- A Python value that is either a number or a string (used for fields such
as `cloud_cover` / `uv_index` / air-quality readings, which hold a number or
the string sentinel "N/A"). -/
inductive PyVal where
  | num (q : ℚ)
  | str (s : String)
deriving DecidableEq, Repr

/-- Python 3 `round(x)`: round-half-to-even (banker's rounding) to the
nearest integer, modelled on exact rationals. -/
def pyRound (q : ℚ) : ℤ :=
  let f : ℤ := q.floor
  let frac : ℚ := q - f
  if frac < 1/2 then f
  else if 1/2 < frac then f + 1
  else if f % 2 = 0 then f else f + 1

/-- Python 3 `round(x, 1)`: round to one decimal place (half-to-even). -/
def pyRound1 (q : ℚ) : ℚ := (pyRound (10 * q) : ℚ) / 10

/-- `get_uv_index_level` from `src/app.py` lines 113-124. -/
def get_uv_index_level (uv : ℚ) : String :=
  if uv < 3 then "Low"
  else if uv < 6 then "Moderate"
  else if uv < 8 then "High"
  else if uv < 11 then "Very High"
  else "Extreme"

/-- `get_weather_code_description` from `src/app.py` lines 65-80: the
`weather_codes` dict lookup with default "Unknown". -/
def get_weather_code_description (code : ℤ) : String :=
  if code = 0 then "Clear sky" else if code = 1 then "Mainly clear"
  else if code = 2 then "Partly cloudy" else if code = 3 then "Overcast"
  else if code = 45 then "Fog" else if code = 48 then "Depositing rime fog"
  else if code = 51 then "Light drizzle" else if code = 53 then "Moderate drizzle"
  else if code = 55 then "Dense drizzle"
  else if code = 56 then "Light freezing drizzle" else if code = 57 then "Dense freezing drizzle"
  else if code = 61 then "Slight rain" else if code = 63 then "Moderate rain"
  else if code = 65 then "Heavy rain"
  else if code = 66 then "Light freezing rain" else if code = 67 then "Heavy freezing rain"
  else if code = 71 then "Slight snow" else if code = 73 then "Moderate snow"
  else if code = 75 then "Heavy snow" else if code = 77 then "Snow grains"
  else if code = 80 then "Slight rain showers" else if code = 81 then "Moderate rain showers"
  else if code = 82 then "Violent rain showers"
  else if code = 85 then "Slight snow showers" else if code = 86 then "Heavy snow showers"
  else if code = 95 then "Thunderstorm" else if code = 96 then "Thunderstorm with slight hail"
  else if code = 99 then "Thunderstorm with heavy hail"
  else "Unknown"

/-- `get_weather_icon` from `src/app.py` lines 82-111 (icon strings copied
byte-for-byte from the source file). -/
def get_weather_icon (code : ℤ) (is_day : Bool := true) : String :=
  if is_day then
    if code = 0 then "â˜€ï¸" else if code = 1 then "ğŸŒ¤ï¸"
    else if code = 2 then "â›…" else if code = 3 then "â˜ï¸"
    else if code = 45 then "ğŸŒ«ï¸" else if code = 48 then "ğŸŒ«ï¸"
    else if code = 51 then "ğŸŒ¦ï¸" else if code = 53 then "ğŸŒ¦ï¸" else if code = 55 then "ğŸŒ¦ï¸"
    else if code = 56 then "ğŸŒ¨ï¸" else if code = 57 then "ğŸŒ¨ï¸"
    else if code = 61 then "ğŸŒ§ï¸" else if code = 63 then "ğŸŒ§ï¸" else if code = 65 then "â›ˆï¸"
    else if code = 66 then "ğŸŒ¨ï¸" else if code = 67 then "ğŸŒ¨ï¸"
    else if code = 71 then "â„ï¸" else if code = 73 then "â„ï¸"
    else if code = 75 then "â„ï¸" else if code = 77 then "â„ï¸"
    else if code = 80 then "ğŸŒ¦ï¸" else if code = 81 then "ğŸŒ§ï¸" else if code = 82 then "â›ˆï¸"
    else if code = 85 then "ğŸŒ¨ï¸" else if code = 86 then "ğŸŒ¨ï¸"
    else if code = 95 then "â›ˆï¸" else if code = 96 then "â›ˆï¸" else if code = 99 then "â›ˆï¸"
    else "â“"
  else
    if code = 0 then "ğŸŒ™" else if code = 1 then "ğŸŒ™"
    else if code = 2 then "â˜ï¸" else if code = 3 then "â˜ï¸"
    else if code = 45 then "ğŸŒ«ï¸" else if code = 48 then "ğŸŒ«ï¸"
    else if code = 51 then "ğŸŒ¦ï¸" else if code = 53 then "ğŸŒ¦ï¸" else if code = 55 then "ğŸŒ¦ï¸"
    else if code = 56 then "ğŸŒ¨ï¸" else if code = 57 then "ğŸŒ¨ï¸"
    else if code = 61 then "ğŸŒ§ï¸" else if code = 63 then "ğŸŒ§ï¸" else if code = 65 then "â›ˆï¸"
    else if code = 66 then "ğŸŒ¨ï¸" else if code = 67 then "ğŸŒ¨ï¸"
    else if code = 71 then "â„ï¸" else if code = 73 then "â„ï¸"
    else if code = 75 then "â„ï¸" else if code = 77 then "â„ï¸"
    else if code = 80 then "ğŸŒ¦ï¸" else if code = 81 then "ğŸŒ§ï¸" else if code = 82 then "â›ˆï¸"
    else if code = 85 then "ğŸŒ¨ï¸" else if code = 86 then "ğŸŒ¨ï¸"
    else if code = 95 then "â›ˆï¸" else if code = 96 then "â›ˆï¸" else if code = 99 then "â›ˆï¸"
    else "â“"

/-- The recent-searches update performed by `/weather` in `src/app.py`
lines 284-287: `if city not in searches: searches.insert(0, city);
searches = searches[:5]` — when the city is already present nothing is done. -/
def updateRecentSearches (searches : List String) (city : String) : List String :=
  if city ∈ searches then searches
  else (city :: searches).take 5

/-- Helper for `pySplit`: split a character list at every occurrence of
`c`, `acc` being the current chunk reversed. -/
def splitOnCharAux (c : Char) : List Char → List Char → List (List Char)
  | [], acc => [acc.reverse]
  | x :: xs, acc =>
      if x = c then acc.reverse :: splitOnCharAux c xs []
      else splitOnCharAux c xs (x :: acc)

/-- Python `s.split(c)` for a one-character separator (the source only
splits on `'T'` and `'-'`). -/
def pySplit (s : String) (c : Char) : List String :=
  (splitOnCharAux c s.toList []).map String.mk

/-- Python `s.strip()`: drop leading and trailing whitespace. -/
def pyStrip (s : String) : String :=
  String.mk (((s.toList.dropWhile Char.isWhitespace).reverse.dropWhile
    Char.isWhitespace).reverse)

/-- Decimal value of a digit string (applied only after an all-digits
check). -/
def digitsToNat (l : List Char) : Nat :=
  l.foldl (fun n c => n * 10 + (c.toNat - 48)) 0

/-- A Python exception raised during the shaping of the forecast payload:
`KeyError` (dict access on a missing key), `IndexError` (list index out of
range), `ValueError` (`datetime.fromisoformat` on a malformed string). -/
inductive PyErr where
  | keyError (key : String)
  | indexError
  | valueError (msg : String)
deriving DecidableEq, Repr

/-- A Python dict access `d[key]`: raises `KeyError(key)` when absent. -/
def dictGet {α : Type} (key : String) : Option α → Except PyErr α
  | some v => Except.ok v
  | none => Except.error (PyErr.keyError key)

/-- A Python list access `l[i]`: raises `IndexError` when out of range. -/
def listIdx {α : Type} (l : List α) (i : Nat) : Except PyErr α :=
  match l.get? i with
  | some v => Except.ok v
  | none => Except.error PyErr.indexError

/-- The location dict built by `get_coordinates` on success
(`src/app.py` lines 49-55). -/
structure Location where
  latitude : ℚ
  longitude : ℚ
  name : String
  country : String
  admin1 : String
deriving DecidableEq, Repr

/-- The three outcomes of `get_coordinates` (`src/app.py` lines 31-63):
a location dict, `None` (no results or a generic error), or an
`{'error': msg}` dict (timeout / connection error). -/
inductive GeoResult where
  | found (loc : Location)
  | notFound
  | errorMsg (msg : String)
deriving DecidableEq, Repr

/-- The `current` block of the forecast response: every field the code reads
is optional, since the upstream JSON may omit it (`d[k]` then raises
`KeyError`, `d.get(k, default)` falls back). -/
structure CurrentData where
  temperature_2m : Option ℚ
  relative_humidity_2m : Option ℚ
  apparent_temperature : Option ℚ
  is_day : Option ℤ
  precipitation : Option ℚ
  weather_code : Option ℤ
  surface_pressure : Option ℚ
  wind_speed_10m : Option ℚ
  wind_direction_10m : Option ℚ
  cloud_cover : Option ℚ
  visibility : Option ℚ
  uv_index : Option ℚ
deriving DecidableEq, Repr

/-- The `hourly` block of the forecast response (parallel arrays). -/
structure HourlyData where
  time : Option (List String)
  temperature_2m : Option (List ℚ)
  weather_code : Option (List ℤ)
  precipitation_probability : Option (List ℚ)
  precipitation : Option (List ℚ)
  wind_speed_10m : Option (List ℚ)
deriving DecidableEq, Repr

/-- The `daily` block of the forecast response (parallel arrays). -/
structure DailyData where
  time : Option (List String)
  weather_code : Option (List ℤ)
  temperature_2m_max : Option (List ℚ)
  temperature_2m_min : Option (List ℚ)
  sunrise : Option (List String)
  sunset : Option (List String)
  precipitation_sum : Option (List ℚ)
  wind_speed_10m_max : Option (List ℚ)
  precipitation_probability_max : Option (List ℚ)
  uv_index_max : Option (List ℚ)
deriving DecidableEq, Repr

/-- The JSON body of the main forecast response; `data['current']` etc.
raise `KeyError` when a block is absent. -/
structure ForecastPayload where
  current : Option CurrentData
  daily : Option DailyData
  hourly : Option HourlyData
deriving DecidableEq, Repr

/-- Outcome of one network `requests.get` call. -/
inductive Net (α : Type) where
  | ok (a : α)
  | timeout
  | connError
deriving DecidableEq, Repr

/-- The `current` block of the air-quality response. -/
structure AQCurrent where
  us_aqi : Option ℚ
  pm10 : Option ℚ
  pm2_5 : Option ℚ
deriving DecidableEq, Repr

/-- The JSON body of the air-quality response. -/
structure AQPayload where
  current : Option AQCurrent
deriving DecidableEq, Repr

/-- Outcome of the air-quality call at `src/app.py` lines 183-192: either a
parsed JSON body, or any failure of `requests.get` / `.json()` (timeout,
connection error, malformed body) — all swallowed by the bare `except`. -/
inductive AQOutcome where
  | ok (p : AQPayload)
  | fail
deriving DecidableEq, Repr

/-- The `air_quality` sub-dict of the shaped response. -/
structure AirQuality where
  aqi : PyVal
  pm10 : PyVal
  pm25 : PyVal
deriving DecidableEq, Repr

/-- `aq_data['current'].get(k, 'N/A')`. -/
def aqField (v : Option ℚ) : PyVal :=
  match v with
  | some q => PyVal.num q
  | none => PyVal.str "N/A"

/-- The air-quality sub-dict built at `src/app.py` lines 183-192: on a parsed
body, each field individually defaults to "N/A"; `aq_data['current']` raising
`KeyError` inside the inner `try`, or the call failing, yields all-"N/A". -/
def fetchAirQuality : AQOutcome → AirQuality
  | AQOutcome.ok p =>
      match p.current with
      | some c => { aqi := aqField c.us_aqi, pm10 := aqField c.pm10, pm25 := aqField c.pm2_5 }
      | none => { aqi := PyVal.str "N/A", pm10 := PyVal.str "N/A", pm25 := PyVal.str "N/A" }
  | AQOutcome.fail => { aqi := PyVal.str "N/A", pm10 := PyVal.str "N/A", pm25 := PyVal.str "N/A" }

/-- The oracle for one run of `get_weather_data`: what each upstream call
would return. -/
structure Env where
  geo : GeoResult
  forecast : Net ForecastPayload
  aq : AQOutcome
deriving DecidableEq, Repr

/-- A calendar date, the part of Python's `datetime` that
`strftime('%A, %B %d')` consumes. -/
structure PyDate where
  year : Nat
  month : Nat
  day : Nat
deriving DecidableEq, Repr

/-- Gregorian leap year. -/
def isLeapYear (y : Nat) : Bool :=
  (y % 4 = 0 && y % 100 ≠ 0) || y % 400 = 0

/-- Number of days in a month. -/
def daysInMonth (y m : Nat) : Nat :=
  if m = 2 then (if isLeapYear y then 29 else 28)
  else if m = 4 || m = 6 || m = 9 || m = 11 then 30
  else 31

/-- `datetime.fromisoformat` restricted to the `YYYY-MM-DD` date form the
forecast API serves; a malformed string raises `ValueError`. -/
def fromisoformat (s : String) : Except PyErr PyDate :=
  let bad : Except PyErr PyDate :=
    Except.error (PyErr.valueError s!"Invalid isoformat string: \u0027{s}\u0027")
  match pySplit s '-' with
  | [ys, ms, ds] =>
      if ys.length = 4 && ms.length = 2 && ds.length = 2 &&
         ys.toList.all Char.isDigit && ms.toList.all Char.isDigit &&
         ds.toList.all Char.isDigit then
        let y := digitsToNat ys.toList
        let m := digitsToNat ms.toList
        let d := digitsToNat ds.toList
        if 1 ≤ m && m ≤ 12 then
          if 1 ≤ d && d ≤ daysInMonth y m then
            Except.ok { year := y, month := m, day := d }
          else Except.error (PyErr.valueError "day is out of range for month")
        else Except.error (PyErr.valueError "month must be in 1..12")
      else bad
  | _ => bad

/-- Day of week by Sakamoto's method, 0 = Sunday. -/
def dayOfWeek (dt : PyDate) : Nat :=
  let t : List Nat := [0, 3, 2, 5, 0, 3, 5, 1, 4, 6, 2, 4]
  let y := if dt.month < 3 then dt.year - 1 else dt.year
  (y + y / 4 - y / 100 + y / 400 + (t.get? (dt.month - 1)).getD 0 + dt.day) % 7

/-- English weekday name, 0 = Sunday (Python `%A`). -/
def weekdayName (w : Nat) : String :=
  match w with
  | 0 => "Sunday" | 1 => "Monday" | 2 => "Tuesday" | 3 => "Wednesday"
  | 4 => "Thursday" | 5 => "Friday" | 6 => "Saturday" | _ => ""

/-- English month name (Python `%B`). -/
def monthName (m : Nat) : String :=
  match m with
  | 1 => "January" | 2 => "February" | 3 => "March" | 4 => "April"
  | 5 => "May" | 6 => "June" | 7 => "July" | 8 => "August"
  | 9 => "September" | 10 => "October" | 11 => "November" | 12 => "December"
  | _ => ""

/-- Zero-padded two-digit number (Python `%d`). -/
def pad2 (n : Nat) : String :=
  if n < 10 then "0" ++ toString n else toString n

/-- Python `date_obj.strftime('%A, %B %d')`. -/
def strftime_A_B_d (dt : PyDate) : String :=
  weekdayName (dayOfWeek dt) ++ ", " ++ monthName dt.month ++ " " ++ pad2 dt.day

/-- Python `iso.split('T')[1][:5]`: the HH:MM part of an ISO timestamp;
raises `IndexError` when the string has no `T`. -/
def timeOfDay (iso : String) : Except PyErr String := do
  let part ← listIdx (pySplit iso 'T') 1
  Except.ok (part.take 5)

/-- `daily['sunrise'][0].split('T')[1][:5] if daily.get('sunrise') else 'N/A'`
(`src/app.py` lines 212-213).  `daily.get(k)` is falsy when the key is absent
or the list empty. -/
def extractDailyTime (entry : Option (List String)) : Except PyErr String :=
  match entry with
  | some l =>
      if l.isEmpty then Except.ok "N/A"
      else do
        let s ← listIdx l 0
        timeOfDay s
  | none => Except.ok "N/A"

/-- The `current_weather` dict built at `src/app.py` lines 195-216. -/
structure CurrentWeather where
  city : String
  country : String
  admin1 : String
  temperature : ℤ
  feels_like : ℤ
  description : String
  icon : String
  humidity : ℚ
  pressure : ℤ
  wind_speed : ℚ
  wind_direction : ℤ
  precipitation : ℚ
  cloud_cover : PyVal
  visibility : PyVal
  uv_index : PyVal
  uv_level : String
  sunrise : String
  sunset : String
  air_quality : AirQuality
  unit : String
deriving DecidableEq, Repr

/-- One entry of the `hourly_forecasts` list (`src/app.py` lines 221-230). -/
structure HourPoint where
  time : String
  temperature : ℤ
  icon : String
  precipitation_prob : ℚ
  precipitation : ℚ
  wind_speed : ℚ
deriving DecidableEq, Repr

/-- One entry of the `daily_forecasts` list (`src/app.py` lines 238-248). -/
structure DayPoint where
  date : String
  temperature_max : ℤ
  temperature_min : ℤ
  description : String
  icon : String
  precipitation : ℚ
  precipitation_prob : ℚ
  wind_speed : ℚ
  uv_index : ℚ
deriving DecidableEq, Repr

/-- The JSON payload `get_weather_data` returns.  A Python failure dict
`{'success': False, 'error': msg}` has no `current`/`hourly`/`forecast`
keys, so those components are `Option`s. -/
structure WeatherResponse where
  success : Bool
  error : Option String
  current : Option CurrentWeather
  hourly : Option (List HourPoint)
  forecast : Option (List DayPoint)
deriving DecidableEq, Repr

/-- A `{'success': False, 'error': msg}` dict. -/
def failResp (msg : String) : WeatherResponse :=
  { success := false, error := some msg, current := none, hourly := none, forecast := none }

/-- `current.get(k, 'N/A')` for a numeric field. -/
def getOrNA (v : Option ℚ) : PyVal :=
  match v with
  | some q => PyVal.num q
  | none => PyVal.str "N/A"

/-- The `current_weather` dict built at `src/app.py` lines 195-216; required
keys are read with `d[k]` (possible `KeyError`), optional ones with `.get`. -/
def buildCurrentWeather (loc : Location) (unit : String) (air : AirQuality)
    (current : CurrentData) (daily : DailyData) : Except PyErr CurrentWeather := do
  let temp ← dictGet "temperature_2m" current.temperature_2m
  let feels ← dictGet "apparent_temperature" current.apparent_temperature
  let wcode ← dictGet "weather_code" current.weather_code
  let isday ← dictGet "is_day" current.is_day
  let humidity ← dictGet "relative_humidity_2m" current.relative_humidity_2m
  let pressure ← dictGet "surface_pressure" current.surface_pressure
  let windspeed ← dictGet "wind_speed_10m" current.wind_speed_10m
  let winddir ← dictGet "wind_direction_10m" current.wind_direction_10m
  let sunrise ← extractDailyTime daily.sunrise
  let sunset ← extractDailyTime daily.sunset
  Except.ok {
    city := loc.name
    country := loc.country
    admin1 := loc.admin1
    temperature := pyRound temp
    feels_like := pyRound feels
    description := get_weather_code_description wcode
    icon := get_weather_icon wcode (isday != 0)
    humidity := humidity
    pressure := pyRound pressure
    wind_speed := pyRound1 windspeed
    wind_direction := pyRound winddir
    precipitation := current.precipitation.getD 0
    cloud_cover := getOrNA current.cloud_cover
    visibility :=
      match current.visibility with
      | some v => if v ≠ 0 then PyVal.num (pyRound1 (v / 1000)) else PyVal.str "N/A"
      | none => PyVal.str "N/A"
    uv_index := getOrNA current.uv_index
    uv_level :=
      match current.uv_index with
      | some u => if u ≠ 0 then get_uv_index_level u else "N/A"
      | none => "N/A"
    sunrise := sunrise
    sunset := sunset
    air_quality := air
    unit := unit }

/-- One iteration of the hourly loop (`src/app.py` lines 221-230). -/
def mkHourPoint (h : HourlyData) (i : Nat) : Except PyErr HourPoint := do
  let times ← dictGet "time" h.time
  let tstr ← listIdx times i
  let t ← timeOfDay tstr
  let temps ← dictGet "temperature_2m" h.temperature_2m
  let temp ← listIdx temps i
  let codes ← dictGet "weather_code" h.weather_code
  let code ← listIdx codes i
  let probs ← dictGet "precipitation_probability" h.precipitation_probability
  let prob ← listIdx probs i
  let precs ← dictGet "precipitation" h.precipitation
  let prec ← listIdx precs i
  let winds ← dictGet "wind_speed_10m" h.wind_speed_10m
  let wind ← listIdx winds i
  Except.ok {
    time := t
    temperature := pyRound temp
    icon := get_weather_icon code true
    precipitation_prob := prob
    precipitation := prec
    wind_speed := pyRound1 wind }

/-- `for i in range(24)` building `hourly_forecasts`
(`src/app.py` lines 219-230). -/
def buildHourly (h : HourlyData) : Except PyErr (List HourPoint) :=
  (List.range 24).mapM (mkHourPoint h)

/-- One iteration of the daily loop (`src/app.py` lines 234-248). -/
def mkDayPoint (d : DailyData) (i : Nat) : Except PyErr DayPoint := do
  let times ← dictGet "time" d.time
  let date_str ← listIdx times i
  let date_obj ← fromisoformat date_str
  let tmaxs ← dictGet "temperature_2m_max" d.temperature_2m_max
  let tmax ← listIdx tmaxs i
  let tmins ← dictGet "temperature_2m_min" d.temperature_2m_min
  let tmin ← listIdx tmins i
  let codes ← dictGet "weather_code" d.weather_code
  let code ← listIdx codes i
  let psums ← dictGet "precipitation_sum" d.precipitation_sum
  let psum ← listIdx psums i
  let pprobs ← dictGet "precipitation_probability_max" d.precipitation_probability_max
  let pprob ← listIdx pprobs i
  let winds ← dictGet "wind_speed_10m_max" d.wind_speed_10m_max
  let wind ← listIdx winds i
  let uvs ← dictGet "uv_index_max" d.uv_index_max
  let uv ← listIdx uvs i
  Except.ok {
    date := strftime_A_B_d date_obj
    temperature_max := pyRound tmax
    temperature_min := pyRound tmin
    description := get_weather_code_description code
    icon := get_weather_icon code true
    precipitation := psum
    precipitation_prob := pprob
    wind_speed := pyRound1 wind
    uv_index := uv }

/-- `for i in range(1, min(6, len(daily['time'])))` building
`daily_forecasts` (`src/app.py` lines 233-248). -/
def buildDaily (d : DailyData) : Except PyErr (List DayPoint) := do
  let times ← dictGet "time" d.time
  (List.range' 1 (min 6 times.length - 1)).mapM (mkDayPoint d)

/-- The whole body of `get_weather_data` after a successful forecast call
(`src/app.py` lines 171-255): extract the three blocks (`KeyError` if one is
absent), fetch air quality best-effort, then build the response dict. -/
def shapeAll (unit : String) (loc : Location) (aqo : AQOutcome)
    (data : ForecastPayload) : Except PyErr WeatherResponse := do
  let current ← dictGet "current" data.current
  let daily ← dictGet "daily" data.daily
  let hourly ← dictGet "hourly" data.hourly
  let air_quality := fetchAirQuality aqo
  let current_weather ← buildCurrentWeather loc unit air_quality current daily
  let hourly_forecasts ← buildHourly hourly
  let daily_forecasts ← buildDaily daily
  Except.ok {
    success := true
    error := none
    current := some current_weather
    hourly := some hourly_forecasts
    forecast := some daily_forecasts }

/-- The message produced by the `except` clauses at `src/app.py` lines
261-264: `KeyError` yields `Invalid API response: 'key'`; other exceptions
(`IndexError`, `ValueError`) fall to the generic handler. -/
def pyErrMessage : PyErr → String
  | PyErr.keyError k => s!"Invalid API response: \u0027{k}\u0027"
  | PyErr.indexError => "An error occurred: list index out of range"
  | PyErr.valueError m => s!"An error occurred: {m}"

/-- `get_weather_data` (`src/app.py` lines 126-264), with the network
modelled by the `Env` oracle.  Geocoding failures return early; a forecast
timeout / connection error is caught by the matching `except`; any exception
raised while shaping is converted by the `except` clauses at lines 261-264. -/
def get_weather_data (env : Env) (city : String) (unit : String := "celsius") :
    WeatherResponse :=
  match env.geo with
  | GeoResult.notFound => failResp s!"City \"{city}\" not found"
  | GeoResult.errorMsg m => failResp m
  | GeoResult.found loc =>
      match env.forecast with
      | Net.timeout => failResp "Request timeout. Please try again."
      | Net.connError => failResp "Network connection error."
      | Net.ok data =>
          match shapeAll unit loc env.aq data with
          | Except.ok r => r
          | Except.error e => failResp (pyErrMessage e)

/-- The per-client Flask session: only the `recent_searches` key is used;
`none` models the key being absent. -/
structure SessionState where
  recent_searches : Option (List String)
deriving DecidableEq, Repr

/-- The `/weather` endpoint `get_weather` (`src/app.py` lines 270-290):
trim the city, reject an empty one, initialise and update the session's
recent searches (before the lookup), then call `get_weather_data`. -/
def get_weather (sess : SessionState) (cityParam unitParam : Option String)
    (env : Env) : SessionState × WeatherResponse :=
  let city := pyStrip (cityParam.getD "")
  let unit := unitParam.getD "celsius"
  if city = "" then (sess, failResp "City name is required")
  else
    let searches := sess.recent_searches.getD []
    let searches2 := updateRecentSearches searches city
    ({ recent_searches := some searches2 }, get_weather_data env city unit)

/-- One entry of the `/geocode` autocomplete response
(`src/app.py` lines 317-322). -/
structure GeoEntry where
  name : String
  country : String
  admin1 : String
  display : String
deriving DecidableEq, Repr

/-- The `/geocode` response payload. -/
structure GeocodeResponse where
  success : Bool
  error : Option String
  results : Option (List GeoEntry)
deriving DecidableEq, Repr

/-- Outcome of the `/geocode` upstream call: a parsed body whose `results`
key may be absent (`none`), or any exception (timeout, bad JSON) whose
`str(e)` is the given message. -/
inductive GeocodeNet where
  | ok (results : Option (List Location))
  | exc (msg : String)
deriving DecidableEq, Repr

/-- The `/geocode` endpoint (`src/app.py` lines 292-327).  It never touches
the session, which is passed through unchanged. -/
def geocode (sess : SessionState) (queryParam : Option String)
    (net : GeocodeNet) : SessionState × GeocodeResponse :=
  let query := pyStrip (queryParam.getD "")
  if query.length < 2 then
    (sess, { success := true, error := none, results := some [] })
  else
    match net with
    | GeocodeNet.exc msg =>
        (sess, { success := false, error := some msg, results := none })
    | GeocodeNet.ok body =>
        let results :=
          match body with
          | some locs =>
              locs.map (fun loc =>
                { name := loc.name
                  country := loc.country
                  admin1 := loc.admin1
                  display :=
                    if loc.admin1 ≠ "" then
                      s!"{loc.name}, {loc.admin1}, {loc.country}"
                    else
                      s!"{loc.name}, {loc.country}" : GeoEntry })
          | none => []
        (sess, { success := true, error := none, results := some results })

/-- Python truthiness of an optional numeric JSON field: absent (`None`)
and `0` are both falsy. -/
def pyTruthyNum (v : Option ℚ) : Bool :=
  match v with
  | some q => q ≠ 0
  | none => false

/-- Outcome of the reverse-geocoding call inside `/weather-by-coords`:
a body with a nonempty `results` list (its first entry's `name`), a body
without results, or an exception with message `str(e)`. -/
inductive RevGeoOutcome where
  | results (city : String)
  | empty
  | exc (msg : String)
deriving DecidableEq, Repr

/-- The `/weather-by-coords` endpoint `get_weather_by_coords`
(`src/app.py` lines 337-370).  The session is never touched; the final
`Bool` records whether any network request was issued (the guard
`if not lat or not lon` returns before any `requests.get`). -/
def get_weather_by_coords (sess : SessionState) (lat lon : Option ℚ)
    (unitParam : Option String) (rev : RevGeoOutcome) (env : Env) :
    SessionState × WeatherResponse × Bool :=
  let unit := unitParam.getD "celsius"
  if !pyTruthyNum lat || !pyTruthyNum lon then
    (sess, failResp "Coordinates required", false)
  else
    match rev with
    | RevGeoOutcome.results city => (sess, get_weather_data env city unit, true)
    | RevGeoOutcome.empty => (sess, failResp "Location not found", true)
    | RevGeoOutcome.exc msg => (sess, failResp msg, true)

/-- A cache key of `@cache.memoize` on `get_weather_data`: the argument
pair `(city, unit)`. -/
abbrev CacheKey := String × String

/-- Modelled from the spec: the memoizing cache store behind
`@cache.memoize(timeout=600)` (`flask_caching` with `CACHE_TYPE: simple`,
`src/app.py` lines 14-17 and 126) is a third-party collaborator whose code
is not in `src/`; spec §4.5 specifies it as at-most-one stored value per
key, entries expiring a fixed timeout after insertion, expired entries
treated as absent on the next lookup (lazy expiry).  The store is a list of
`(key, expiry instant, value)` with at most one live entry per key. -/
def cacheGet {α : Type} (entries : List (CacheKey × Nat × α)) (now : Nat)
    (k : CacheKey) : Option α :=
  match entries.find? (fun e => decide (e.1 = k)) with
  | some e => if now < e.2.1 then some e.2.2 else none
  | none => none

/-- Modelled from the spec: storing a value overwrites any previous entry
for the key and stamps expiry `now + timeout` (spec §4.5). -/
def cacheSet {α : Type} (entries : List (CacheKey × Nat × α))
    (now timeout : Nat) (k : CacheKey) (v : α) : List (CacheKey × Nat × α) :=
  (k, now + timeout, v) :: entries.filter (fun e => !(decide (e.1 = k)))

/-- Modelled from the spec: `getOrCompute` (spec §4.5) — on a fresh hit
return the stored value without running `compute`; on a miss run `compute`,
store, and return.  The `Bool` records whether `compute` was invoked. -/
def getOrCompute {α : Type} (entries : List (CacheKey × Nat × α))
    (now timeout : Nat) (k : CacheKey) (compute : Unit → α) :
    List (CacheKey × Nat × α) × α × Bool :=
  match cacheGet entries now k with
  | some v => (entries, v, false)
  | none =>
      let v := compute ()
      (cacheSet entries now timeout k v, v, true)

/-- The memoized pipeline `get_weather_data` as called through
`@cache.memoize(timeout=600)`: key `(city, unit)`, ten-minute timeout,
the computation being one full fetch+shape run against `env`. -/
def cached_get_weather_data (entries : List (CacheKey × Nat × WeatherResponse))
    (now : Nat) (env : Env) (city unit : String) :
    List (CacheKey × Nat × WeatherResponse) × WeatherResponse × Bool :=
  getOrCompute entries now 600 (city, unit) (fun _ => get_weather_data env city unit)

/-- Rank of a UV label in the spec's bucket order (used to state that
`get_uv_index_level` is monotonic). -/
def uvRank (label : String) : Nat :=
  if label = "Low" then 0
  else if label = "Moderate" then 1
  else if label = "High" then 2
  else if label = "Very High" then 3
  else 4

/-- The session's recent-searches list after a sequence of successful
non-empty city submissions to `/weather`, starting from a fresh session. -/
def runSearches (cities : List String) : List String :=
  cities.foldl updateRecentSearches []

/-- A concrete resolved location, for witnesses. -/
def locW : Location :=
  { latitude := 39.8, longitude := -89.65, name := "Springfield",
    country := "United States", admin1 := "Illinois" }

/-- A concrete well-formed `current` block, for witnesses. -/
def currentW : CurrentData :=
  { temperature_2m := some 12.34, relative_humidity_2m := some 65,
    apparent_temperature := some 10.62, is_day := some 1,
    precipitation := some 0.5, weather_code := some 2,
    surface_pressure := some 1013.25, wind_speed_10m := some 14.37,
    wind_direction_10m := some 213.5, cloud_cover := some 40,
    visibility := some 24140, uv_index := some 3.0 }

/-- A concrete well-formed `hourly` block with 24 entries, for witnesses. -/
def hourlyW : HourlyData :=
  { time := some (List.replicate 24 "2026-10-05T13:00"),
    temperature_2m := some (List.replicate 24 (12.75 : ℚ)),
    weather_code := some (List.replicate 24 (61 : ℤ)),
    precipitation_probability := some (List.replicate 24 (40 : ℚ)),
    precipitation := some (List.replicate 24 (0.2 : ℚ)),
    wind_speed_10m := some (List.replicate 24 (10.25 : ℚ)) }

/-- A concrete well-formed `daily` block with a 7-day window, for
witnesses. -/
def dailyW : DailyData :=
  { time := some ["2026-10-05", "2026-10-06", "2026-10-07", "2026-10-08",
                  "2026-10-09", "2026-10-10", "2026-10-11"],
    weather_code := some (List.replicate 7 (3 : ℤ)),
    temperature_2m_max := some (List.replicate 7 (15.5 : ℚ)),
    temperature_2m_min := some (List.replicate 7 (7.49 : ℚ)),
    sunrise := some (List.replicate 7 "2026-10-05T07:04"),
    sunset := some (List.replicate 7 "2026-10-05T18:39"),
    precipitation_sum := some (List.replicate 7 (1.2 : ℚ)),
    wind_speed_10m_max := some (List.replicate 7 (22.34 : ℚ)),
    precipitation_probability_max := some (List.replicate 7 (55 : ℚ)),
    uv_index_max := some (List.replicate 7 (4.5 : ℚ)) }

/-- A concrete well-formed forecast payload, for witnesses. -/
def dataW : ForecastPayload :=
  { current := some currentW, daily := some dailyW, hourly := some hourlyW }

/-- The shaped response for `dataW` with a failed air-quality call, for
witnesses. -/
def shapedW : WeatherResponse :=
  match shapeAll "celsius" locW AQOutcome.fail dataW with
  | Except.ok r => r
  | Except.error _ => failResp ""

/-- The numeric rank of the bucket `get_uv_index_level` assigns. -/
theorem uvRank_level (x : ℚ) :
    uvRank (get_uv_index_level x) =
      if x < 3 then 0 else if x < 6 then 1 else if x < 8 then 2
      else if x < 11 then 3 else 4 := by
  unfold get_uv_index_level
  split_ifs <;> rfl

/-- C8: `get_uv_index_level` maps UV indices by the half-open intervals
[0,3) ↦ Low, [3,6) ↦ Moderate, [6,8) ↦ High, [8,11) ↦ Very High,
[11,∞) ↦ Extreme; the listed boundary samples evaluate as stated, and the
mapping is monotonic in the UV index (`uvRank` orders the five labels). -/
theorem uv_level_buckets_monotone :
    (get_uv_index_level 2.9 = "Low" ∧ get_uv_index_level 3 = "Moderate" ∧
     get_uv_index_level 5.9 = "Moderate" ∧ get_uv_index_level 6 = "High" ∧
     get_uv_index_level 10.9 = "Very High" ∧ get_uv_index_level 11 = "Extreme") ∧
    (∀ uv : ℚ,
      (uv < 3 → get_uv_index_level uv = "Low") ∧
      (3 ≤ uv → uv < 6 → get_uv_index_level uv = "Moderate") ∧
      (6 ≤ uv → uv < 8 → get_uv_index_level uv = "High") ∧
      (8 ≤ uv → uv < 11 → get_uv_index_level uv = "Very High") ∧
      (11 ≤ uv → get_uv_index_level uv = "Extreme")) ∧
    (∀ a b : ℚ, a ≤ b → uvRank (get_uv_index_level a) ≤ uvRank (get_uv_index_level b)) := by
  refine ⟨by decide, ?_, ?_⟩
  · intro uv
    refine ⟨fun h => ?_, fun h1 h2 => ?_, fun h1 h2 => ?_, fun h1 h2 => ?_, fun h => ?_⟩ <;>
      unfold get_uv_index_level
    · rw [if_pos h]
    · rw [if_neg (by linarith), if_pos h2]
    · rw [if_neg (by linarith), if_neg (by linarith), if_pos h2]
    · rw [if_neg (by linarith), if_neg (by linarith), if_neg (by linarith), if_pos h2]
    · rw [if_neg (by linarith), if_neg (by linarith), if_neg (by linarith),
        if_neg (by linarith)]
  · intro a b hab
    rw [uvRank_level, uvRank_level]
    split_ifs <;> first | decide | (exfalso; linarith)

/-- Witness for C8: the general bucket and monotonicity clauses applied at
concrete UV indices. -/
theorem uv_level_buckets_monotone_witness :
    get_uv_index_level 4 = "Moderate" ∧
    uvRank (get_uv_index_level 2) ≤ uvRank (get_uv_index_level 7) :=
  ⟨(uv_level_buckets_monotone.2.1 4).2.1 (by norm_num) (by norm_num),
   uv_level_buckets_monotone.2.2 2 7 (by norm_num)⟩

/-- C10: `/weather-by-coords` treats latitude 0 or longitude 0 as missing
(`if not lat or not lon`): the response is the `Coordinates required`
failure and no network request is issued (the `Bool` component is
`false`). -/
theorem coords_zero_treated_missing (sess : SessionState) (lat lon : Option ℚ)
    (unitParam : Option String) (rev : RevGeoOutcome) (env : Env)
    (h : lat = some 0 ∨ lon = some 0) :
    get_weather_by_coords sess lat lon unitParam rev env =
      (sess, failResp "Coordinates required", false) := by
  rcases h with h | h <;> subst h <;>
    simp [get_weather_by_coords, pyTruthyNum]

/-- Witness for C10: latitude on the equator with a perfectly good
longitude is rejected without any network call. -/
theorem coords_zero_treated_missing_witness :
    get_weather_by_coords { recent_searches := none } (some 0) (some 7.5) none
        RevGeoOutcome.empty
        { geo := GeoResult.notFound, forecast := Net.timeout, aq := AQOutcome.fail } =
      ({ recent_searches := none }, failResp "Coordinates required", false) :=
  coords_zero_treated_missing _ _ _ _ _ _ (Or.inl rfl)

/-- Counterexample to C4: submitting "a" when the session list is
["b", "a"] leaves the list as ["b", "a"] — the duplicate is left in place,
not moved to the front as the claim states. -/
theorem recent_reinsert_counterexample :
    (get_weather { recent_searches := some ["b", "a"] } (some "a") none
        { geo := GeoResult.notFound, forecast := Net.timeout, aq := AQOutcome.fail }).1 =
      { recent_searches := some ["b", "a"] } ∧
    (get_weather { recent_searches := some ["b", "a"] } (some "a") none
        { geo := GeoResult.notFound, forecast := Net.timeout, aq := AQOutcome.fail }).1 ≠
      { recent_searches := some ["a", "b"] } := by
  constructor
  · rfl
  · decide

/-- C4 (amended): a name-based weather request for a city already present
in the session's recent-searches list leaves the list exactly unchanged —
the duplicate is neither appended nor moved to the front. -/
theorem recent_reinsert_unchanged (searches : List String) (cityParam : String)
    (unitParam : Option String) (env : Env)
    (hne : pyStrip cityParam ≠ "")
    (hmem : pyStrip cityParam ∈ searches) :
    (get_weather { recent_searches := some searches } (some cityParam) unitParam env).1 =
      { recent_searches := some searches } := by
  unfold get_weather
  simp only [Option.getD_some]
  rw [if_neg hne]
  simp [updateRecentSearches, hmem]

/-- Witness for C4 (amended): re-submitting "a" with list ["b", "a"]. -/
theorem recent_reinsert_unchanged_witness :
    pyStrip "a" ≠ "" ∧ pyStrip "a" ∈ ["b", "a"] ∧
    (get_weather { recent_searches := some ["b", "a"] } (some "a") none
        { geo := GeoResult.notFound, forecast := Net.timeout, aq := AQOutcome.fail }).1 =
      { recent_searches := some ["b", "a"] } :=
  ⟨by decide, by decide,
   recent_reinsert_unchanged ["b", "a"] "a" none _ (by decide) (by decide)⟩

/-- One update keeps the recent-searches list within five entries. -/
theorem updateRecentSearches_length {l : List String} (c : String)
    (h : l.length ≤ 5) : (updateRecentSearches l c).length ≤ 5 := by
  unfold updateRecentSearches
  split_ifs with hmem
  · exact h
  · simp [List.length_take]

/-- One update keeps the recent-searches list duplicate-free. -/
theorem updateRecentSearches_nodup {l : List String} (c : String)
    (h : l.Nodup) : (updateRecentSearches l c).Nodup := by
  unfold updateRecentSearches
  split_ifs with hmem
  · exact h
  · exact List.Nodup.sublist (List.take_sublist 5 _) (List.nodup_cons.mpr ⟨hmem, h⟩)

/-- The two invariants hold for any fold of updates from any compliant
starting list. -/
theorem foldl_updateRecentSearches_inv (cities : List String) :
    ∀ init : List String, init.length ≤ 5 → init.Nodup →
      (cities.foldl updateRecentSearches init).length ≤ 5 ∧
      (cities.foldl updateRecentSearches init).Nodup := by
  induction cities with
  | nil => intro init h1 h2; exact ⟨h1, h2⟩
  | cons c cs ih =>
      intro init h1 h2
      exact ih (updateRecentSearches init c)
        (updateRecentSearches_length c h1) (updateRecentSearches_nodup c h2)

/-- Counterexample to C6: the sequence of searches `a, b, a` leaves the
session list as `["b", "a"]`, which is not most-recent-first (the most
recent search `a` is last, not first). -/
theorem recent_order_counterexample :
    runSearches ["a", "b", "a"] = ["b", "a"] ∧
    runSearches ["a", "b", "a"] ≠ ["a", "b"] := by decide

/-- C6 (amended): after any sequence of recorded searches the session list
has length at most 5 and contains distinct city names; inserting six
distinct cities leaves exactly the five most recently inserted ones,
most-recent-first.  (Most-recent-first ordering fails in general: a
repeated city keeps its old position, see the counterexample.) -/
theorem recent_invariant_amended :
    (∀ cities : List String,
      (runSearches cities).length ≤ 5 ∧ (runSearches cities).Nodup) ∧
    (∀ c1 c2 c3 c4 c5 c6 : String, [c1, c2, c3, c4, c5, c6].Nodup →
      runSearches [c1, c2, c3, c4, c5, c6] = [c6, c5, c4, c3, c2]) := by
  constructor
  · intro cities
    exact foldl_updateRecentSearches_inv cities [] (by simp) (by simp)
  · intro c1 c2 c3 c4 c5 c6 h
    simp only [List.nodup_cons, List.mem_cons, List.mem_singleton,
      List.not_mem_nil, or_false, not_or, not_false_iff, List.nodup_nil,
      and_true] at h
    obtain ⟨⟨h12, h13, h14, h15, h16⟩, ⟨h23, h24, h25, h26⟩,
      ⟨h34, h35, h36⟩, ⟨h45, h46⟩, h56⟩ := h
    simp [runSearches, updateRecentSearches, List.mem_singleton, List.mem_cons,
      Ne.symm h12, Ne.symm h13, Ne.symm h14, Ne.symm h15, Ne.symm h16,
      Ne.symm h23, Ne.symm h24, Ne.symm h25, Ne.symm h26,
      Ne.symm h34, Ne.symm h35, Ne.symm h36,
      Ne.symm h45, Ne.symm h46, Ne.symm h56]

/-- Witness for C6 (amended): the invariants at a concrete repeated-city
sequence, and six concrete distinct cities leaving the five most recent. -/
theorem recent_invariant_amended_witness :
    ((runSearches ["a", "b", "a", "c"]).length ≤ 5 ∧
      (runSearches ["a", "b", "a", "c"]).Nodup) ∧
    runSearches ["a", "b", "c", "d", "e", "f"] = ["f", "e", "d", "c", "b"] :=
  ⟨recent_invariant_amended.1 ["a", "b", "a", "c"],
   recent_invariant_amended.2 "a" "b" "c" "d" "e" "f" (by decide)⟩

/-- Counterexample to C5: a name-based request whose lookup fails (the
geocoder finds no city) still records the submitted name into the
session's recent searches — the list is not left unchanged. -/
theorem recent_recorded_on_failure_counterexample :
    (get_weather { recent_searches := some [] } (some "Nowhere") none
        { geo := GeoResult.notFound, forecast := Net.timeout, aq := AQOutcome.fail }).1 =
      { recent_searches := some ["Nowhere"] } ∧
    (get_weather { recent_searches := some [] } (some "Nowhere") none
        { geo := GeoResult.notFound, forecast := Net.timeout, aq := AQOutcome.fail }).2.success
      = false := by
  constructor
  · rfl
  · rfl

/-- C5 (amended): every name-based `/weather` request with a non-empty
(stripped) city name records it into the session's recent searches
(insert-at-front, dedupe-by-skip, truncate to 5) before the lookup runs,
regardless of the lookup's success; the autocomplete and coordinate
endpoints never modify the list. -/
theorem recent_recording_amended (sess : SessionState)
    (cityParam : String) (unitParam : Option String) (env : Env)
    (q : Option String) (gnet : GeocodeNet) (lat lon : Option ℚ)
    (rev : RevGeoOutcome)
    (hne : pyStrip cityParam ≠ "") :
    (get_weather sess (some cityParam) unitParam env).1 =
      { recent_searches :=
          some (updateRecentSearches (sess.recent_searches.getD [])
            (pyStrip cityParam)) } ∧
    (geocode sess q gnet).1 = sess ∧
    (get_weather_by_coords sess lat lon unitParam rev env).1 = sess := by
  refine ⟨?_, ?_, ?_⟩
  · unfold get_weather
    simp only [Option.getD_some]
    rw [if_neg hne]
  · rcases gnet with body | msg <;> simp only [geocode] <;> split_ifs <;> rfl
  · rcases rev with city | _ | msg <;> simp only [get_weather_by_coords] <;>
      split_ifs <;> rfl

/-- Witness for C5 (amended): a concrete failed lookup that still records
the city, with the other two endpoints leaving the session untouched. -/
theorem recent_recording_amended_witness :
    pyStrip "Nowhere" ≠ "" ∧
    ((get_weather { recent_searches := some ["x"] } (some "Nowhere") none
        { geo := GeoResult.notFound, forecast := Net.timeout, aq := AQOutcome.fail }).1 =
      { recent_searches :=
          some (updateRecentSearches (({ recent_searches := some ["x"]} :
            SessionState).recent_searches.getD []) (pyStrip "Nowhere")) } ∧
    (geocode { recent_searches := some ["x"] } (some "Par") (GeocodeNet.ok none)).1 =
      { recent_searches := some ["x"] } ∧
    (get_weather_by_coords { recent_searches := some ["x"] } (some 1) (some 1) none
        RevGeoOutcome.empty
        { geo := GeoResult.notFound, forecast := Net.timeout, aq := AQOutcome.fail }).1 =
      { recent_searches := some ["x"] }) :=
  ⟨by decide,
   recent_recording_amended { recent_searches := some ["x"] } "Nowhere" none
     { geo := GeoResult.notFound, forecast := Net.timeout, aq := AQOutcome.fail }
     (some "Par") (GeocodeNet.ok none) (some 1) (some 1) RevGeoOutcome.empty
     (by decide)⟩

/-- After a miss-and-store at `now1`, a lookup at `now2` before expiry hits
the stored value. -/
theorem cacheGet_after_set {α : Type} (entries : List (CacheKey × Nat × α))
    (now1 now2 timeout : Nat) (k : CacheKey) (v : α)
    (h : now2 < now1 + timeout) :
    cacheGet (cacheSet entries now1 timeout k v) now2 k = some v := by
  unfold cacheGet cacheSet
  rw [List.find?_cons_of_pos _ (by simp)]
  simp [h]

/-- After a miss-and-store at `now1`, a lookup at or past expiry misses. -/
theorem cacheGet_after_expiry {α : Type} (entries : List (CacheKey × Nat × α))
    (now1 now3 timeout : Nat) (k : CacheKey) (v : α)
    (h : now1 + timeout ≤ now3) :
    cacheGet (cacheSet entries now1 timeout k v) now3 k = none := by
  unfold cacheGet cacheSet
  rw [List.find?_cons_of_pos _ (by simp)]
  simp only []
  rw [if_neg (by omega)]

/-- C7: for any key `(city, unit)` initially absent (or expired), the first
call to the cached pipeline computes; a second call within the 600-second
TTL does not invoke the compute again and returns the stored value
unchanged; a call at or after expiry recomputes against the then-current
network and overwrites the entry.  The cache itself is modelled from spec
§4.5 (the `flask_caching` store is not in `src/`). -/
theorem cache_ttl_idempotence
    (entries : List (CacheKey × Nat × WeatherResponse))
    (now1 now2 now3 : Nat) (env env2 env3 : Env) (city unit : String)
    (hmiss : cacheGet entries now1 (city, unit) = none)
    (h12 : now1 ≤ now2) (hin : now2 < now1 + 600)
    (hout : now1 + 600 ≤ now3) :
    (cached_get_weather_data entries now1 env city unit).2.2 = true ∧
    (cached_get_weather_data entries now1 env city unit).2.1 =
      get_weather_data env city unit ∧
    (cached_get_weather_data
        (cached_get_weather_data entries now1 env city unit).1
        now2 env2 city unit).2.2 = false ∧
    (cached_get_weather_data
        (cached_get_weather_data entries now1 env city unit).1
        now2 env2 city unit).2.1 = get_weather_data env city unit ∧
    (cached_get_weather_data
        (cached_get_weather_data entries now1 env city unit).1
        now2 env2 city unit).1 =
      (cached_get_weather_data entries now1 env city unit).1 ∧
    (cached_get_weather_data
        (cached_get_weather_data entries now1 env city unit).1
        now3 env3 city unit).2.2 = true ∧
    (cached_get_weather_data
        (cached_get_weather_data entries now1 env city unit).1
        now3 env3 city unit).2.1 = get_weather_data env3 city unit ∧
    cacheGet (cached_get_weather_data
        (cached_get_weather_data entries now1 env city unit).1
        now3 env3 city unit).1 now3 (city, unit) =
      some (get_weather_data env3 city unit) := by
  have hfirst : cached_get_weather_data entries now1 env city unit =
      (cacheSet entries now1 600 (city, unit) (get_weather_data env city unit),
        get_weather_data env city unit, true) := by
    unfold cached_get_weather_data getOrCompute
    rw [hmiss]
  rw [hfirst]
  have hhit : cacheGet
      (cacheSet entries now1 600 (city, unit) (get_weather_data env city unit))
      now2 (city, unit) = some (get_weather_data env city unit) :=
    cacheGet_after_set _ _ _ _ _ _ hin
  have hexp : cacheGet
      (cacheSet entries now1 600 (city, unit) (get_weather_data env city unit))
      now3 (city, unit) = none :=
    cacheGet_after_expiry _ _ _ _ _ _ hout
  refine ⟨rfl, rfl, ?_, ?_, ?_, ?_, ?_, ?_⟩ <;>
    unfold cached_get_weather_data getOrCompute
  · rw [hhit]
  · rw [hhit]
  · rw [hhit]
  · rw [hexp]
  · rw [hexp]
  · rw [hexp]
    exact cacheGet_after_set _ _ _ _ _ _ (by omega)

/-- Witness for C7: a fresh cache, first call at t=0, second at t=300,
third at t=600, against three different network oracles. -/
theorem cache_ttl_idempotence_witness :
    (cached_get_weather_data [] 0
        { geo := GeoResult.notFound, forecast := Net.timeout, aq := AQOutcome.fail }
        "Springfield" "celsius").2.2 = true ∧
    (cached_get_weather_data [] 0
        { geo := GeoResult.notFound, forecast := Net.timeout, aq := AQOutcome.fail }
        "Springfield" "celsius").2.1 =
      get_weather_data
        { geo := GeoResult.notFound, forecast := Net.timeout, aq := AQOutcome.fail }
        "Springfield" "celsius" ∧
    (cached_get_weather_data
        (cached_get_weather_data [] 0
          { geo := GeoResult.notFound, forecast := Net.timeout, aq := AQOutcome.fail }
          "Springfield" "celsius").1
        300
        { geo := GeoResult.found locW, forecast := Net.ok dataW, aq := AQOutcome.fail }
        "Springfield" "celsius").2.2 = false ∧
    (cached_get_weather_data
        (cached_get_weather_data [] 0
          { geo := GeoResult.notFound, forecast := Net.timeout, aq := AQOutcome.fail }
          "Springfield" "celsius").1
        300
        { geo := GeoResult.found locW, forecast := Net.ok dataW, aq := AQOutcome.fail }
        "Springfield" "celsius").2.1 =
      get_weather_data
        { geo := GeoResult.notFound, forecast := Net.timeout, aq := AQOutcome.fail }
        "Springfield" "celsius" ∧
    (cached_get_weather_data
        (cached_get_weather_data [] 0
          { geo := GeoResult.notFound, forecast := Net.timeout, aq := AQOutcome.fail }
          "Springfield" "celsius").1
        300
        { geo := GeoResult.found locW, forecast := Net.ok dataW, aq := AQOutcome.fail }
        "Springfield" "celsius").1 =
      (cached_get_weather_data [] 0
        { geo := GeoResult.notFound, forecast := Net.timeout, aq := AQOutcome.fail }
        "Springfield" "celsius").1 ∧
    (cached_get_weather_data
        (cached_get_weather_data [] 0
          { geo := GeoResult.notFound, forecast := Net.timeout, aq := AQOutcome.fail }
          "Springfield" "celsius").1
        600
        { geo := GeoResult.found locW, forecast := Net.ok dataW, aq := AQOutcome.fail }
        "Springfield" "celsius").2.2 = true ∧
    (cached_get_weather_data
        (cached_get_weather_data [] 0
          { geo := GeoResult.notFound, forecast := Net.timeout, aq := AQOutcome.fail }
          "Springfield" "celsius").1
        600
        { geo := GeoResult.found locW, forecast := Net.ok dataW, aq := AQOutcome.fail }
        "Springfield" "celsius").2.1 =
      get_weather_data
        { geo := GeoResult.found locW, forecast := Net.ok dataW, aq := AQOutcome.fail }
        "Springfield" "celsius" ∧
    cacheGet (cached_get_weather_data
        (cached_get_weather_data [] 0
          { geo := GeoResult.notFound, forecast := Net.timeout, aq := AQOutcome.fail }
          "Springfield" "celsius").1
        600
        { geo := GeoResult.found locW, forecast := Net.ok dataW, aq := AQOutcome.fail }
        "Springfield" "celsius").1 600 ("Springfield", "celsius") =
      some (get_weather_data
        { geo := GeoResult.found locW, forecast := Net.ok dataW, aq := AQOutcome.fail }
        "Springfield" "celsius") :=
  cache_ttl_idempotence [] 0 300 600
    { geo := GeoResult.notFound, forecast := Net.timeout, aq := AQOutcome.fail }
    { geo := GeoResult.found locW, forecast := Net.ok dataW, aq := AQOutcome.fail }
    { geo := GeoResult.found locW, forecast := Net.ok dataW, aq := AQOutcome.fail }
    "Springfield" "celsius" rfl (by omega) (by omega) (by omega)

/-- C9: because `@cache.memoize` stores whatever `get_weather_data`
returns, a failure payload (success = false) is cached exactly like a
success: a repeated call with the same `(city, unit)` within 600 seconds
returns the stored failure payload without invoking the pipeline — hence
without issuing any upstream request — even if the network (`env2`) has
recovered.  The cache itself is modelled from spec §4.5. -/
theorem cache_failure_payload_cached
    (entries : List (CacheKey × Nat × WeatherResponse))
    (now1 now2 : Nat) (env env2 : Env) (city unit : String)
    (hmiss : cacheGet entries now1 (city, unit) = none)
    (hfail : (get_weather_data env city unit).success = false)
    (h12 : now1 ≤ now2) (hin : now2 < now1 + 600) :
    (cached_get_weather_data entries now1 env city unit).2.1 =
      get_weather_data env city unit ∧
    (cached_get_weather_data
        (cached_get_weather_data entries now1 env city unit).1
        now2 env2 city unit).2.2 = false ∧
    (cached_get_weather_data
        (cached_get_weather_data entries now1 env city unit).1
        now2 env2 city unit).2.1 = get_weather_data env city unit ∧
    (cached_get_weather_data
        (cached_get_weather_data entries now1 env city unit).1
        now2 env2 city unit).2.1.success = false := by
  have h1 : cached_get_weather_data entries now1 env city unit =
      (cacheSet entries now1 600 (city, unit) (get_weather_data env city unit),
        get_weather_data env city unit, true) := by
    unfold cached_get_weather_data getOrCompute
    rw [hmiss]
  rw [h1]
  have hhit : cacheGet
      (cacheSet entries now1 600 (city, unit) (get_weather_data env city unit))
      now2 (city, unit) = some (get_weather_data env city unit) :=
    cacheGet_after_set _ _ _ _ _ _ hin
  refine ⟨rfl, ?_, ?_, ?_⟩ <;>
    unfold cached_get_weather_data getOrCompute
  · rw [hhit]
  · rw [hhit]
  · rw [hhit]
    exact hfail

/-- Witness for C9: a city-not-found failure cached at t=0 is served again
at t=599 although the network oracle would by then succeed. -/
theorem cache_failure_payload_cached_witness :
    (cached_get_weather_data [] 0
        { geo := GeoResult.notFound, forecast := Net.timeout, aq := AQOutcome.fail }
        "Atlantis" "celsius").2.1 =
      get_weather_data
        { geo := GeoResult.notFound, forecast := Net.timeout, aq := AQOutcome.fail }
        "Atlantis" "celsius" ∧
    (cached_get_weather_data
        (cached_get_weather_data [] 0
          { geo := GeoResult.notFound, forecast := Net.timeout, aq := AQOutcome.fail }
          "Atlantis" "celsius").1
        599
        { geo := GeoResult.found locW, forecast := Net.ok dataW, aq := AQOutcome.fail }
        "Atlantis" "celsius").2.2 = false ∧
    (cached_get_weather_data
        (cached_get_weather_data [] 0
          { geo := GeoResult.notFound, forecast := Net.timeout, aq := AQOutcome.fail }
          "Atlantis" "celsius").1
        599
        { geo := GeoResult.found locW, forecast := Net.ok dataW, aq := AQOutcome.fail }
        "Atlantis" "celsius").2.1 =
      get_weather_data
        { geo := GeoResult.notFound, forecast := Net.timeout, aq := AQOutcome.fail }
        "Atlantis" "celsius" ∧
    (cached_get_weather_data
        (cached_get_weather_data [] 0
          { geo := GeoResult.notFound, forecast := Net.timeout, aq := AQOutcome.fail }
          "Atlantis" "celsius").1
        599
        { geo := GeoResult.found locW, forecast := Net.ok dataW, aq := AQOutcome.fail }
        "Atlantis" "celsius").2.1.success = false :=
  cache_failure_payload_cached [] 0 599
    { geo := GeoResult.notFound, forecast := Net.timeout, aq := AQOutcome.fail }
    { geo := GeoResult.found locW, forecast := Net.ok dataW, aq := AQOutcome.fail }
    "Atlantis" "celsius" rfl rfl (by omega) (by omega)

/-- C1: when geocoding succeeded but the primary forecast call fails — by
timeout, by connection error, or because a required key is missing from its
response (a `KeyError` while shaping) — `get_weather_data` returns a
failure payload: success = false, an error message (exactly the matching
handler's message), and no partial weather data: the `current`, `hourly`
and `forecast` components are all absent. -/
theorem getWeatherData_primary_failure_fatal (env : Env) (city unit : String)
    (loc : Location) (hgeo : env.geo = GeoResult.found loc)
    (hfail : env.forecast = Net.timeout ∨ env.forecast = Net.connError ∨
      ∃ data k, env.forecast = Net.ok data ∧
        shapeAll unit loc env.aq data = Except.error (PyErr.keyError k)) :
    (get_weather_data env city unit).success = false ∧
    (get_weather_data env city unit).current = none ∧
    (get_weather_data env city unit).hourly = none ∧
    (get_weather_data env city unit).forecast = none ∧
    (env.forecast = Net.timeout →
      (get_weather_data env city unit).error =
        some "Request timeout. Please try again.") ∧
    (env.forecast = Net.connError →
      (get_weather_data env city unit).error =
        some "Network connection error.") ∧
    (∀ data k, env.forecast = Net.ok data →
      shapeAll unit loc env.aq data = Except.error (PyErr.keyError k) →
      (get_weather_data env city unit).error =
        some (pyErrMessage (PyErr.keyError k))) := by
  obtain ⟨geo, forecast, aq⟩ := env
  simp only at hgeo
  subst hgeo
  rcases hfail with hf | hf | ⟨data, k, hf, hshape⟩ <;> simp only at hf <;> subst hf
  · exact ⟨rfl, rfl, rfl, rfl, fun _ => rfl, fun h => Net.noConfusion h,
      fun data k h => Net.noConfusion h⟩
  · exact ⟨rfl, rfl, rfl, rfl, fun h => Net.noConfusion h, fun _ => rfl,
      fun data k h => Net.noConfusion h⟩
  · refine ⟨?_, ?_, ?_, ?_, fun h => Net.noConfusion h, fun h => Net.noConfusion h,
      fun data2 k2 h2 hs2 => ?_⟩ <;>
      simp only [get_weather_data, hshape]
    · rfl
    · rfl
    · rfl
    · rfl
    · cases h2
      rw [hshape] at hs2
      cases hs2
      rfl

/-- Witness for C1: a found location with a timing-out forecast call. -/
theorem getWeatherData_primary_failure_fatal_witness :
    (get_weather_data
        { geo := GeoResult.found locW, forecast := Net.timeout, aq := AQOutcome.fail }
        "Springfield" "celsius").success = false ∧
    (get_weather_data
        { geo := GeoResult.found locW, forecast := Net.timeout, aq := AQOutcome.fail }
        "Springfield" "celsius").current = none ∧
    (get_weather_data
        { geo := GeoResult.found locW, forecast := Net.timeout, aq := AQOutcome.fail }
        "Springfield" "celsius").hourly = none ∧
    (get_weather_data
        { geo := GeoResult.found locW, forecast := Net.timeout, aq := AQOutcome.fail }
        "Springfield" "celsius").forecast = none ∧
    (({ geo := GeoResult.found locW, forecast := Net.timeout, aq := AQOutcome.fail } :
        Env).forecast = Net.timeout →
      (get_weather_data
        { geo := GeoResult.found locW, forecast := Net.timeout, aq := AQOutcome.fail }
        "Springfield" "celsius").error =
          some "Request timeout. Please try again.") ∧
    (({ geo := GeoResult.found locW, forecast := Net.timeout, aq := AQOutcome.fail } :
        Env).forecast = Net.connError →
      (get_weather_data
        { geo := GeoResult.found locW, forecast := Net.timeout, aq := AQOutcome.fail }
        "Springfield" "celsius").error =
          some "Network connection error.") ∧
    (∀ data k,
      ({ geo := GeoResult.found locW, forecast := Net.timeout, aq := AQOutcome.fail } :
        Env).forecast = Net.ok data →
      shapeAll "celsius" locW AQOutcome.fail data = Except.error (PyErr.keyError k) →
      (get_weather_data
        { geo := GeoResult.found locW, forecast := Net.timeout, aq := AQOutcome.fail }
        "Springfield" "celsius").error =
          some (pyErrMessage (PyErr.keyError k))) :=
  getWeatherData_primary_failure_fatal
    { geo := GeoResult.found locW, forecast := Net.timeout, aq := AQOutcome.fail }
    "Springfield" "celsius" locW rfl (Or.inl rfl)

/-- Peel one bind off a successful `Except` computation. -/
theorem except_bind_ok {ε α β : Type} {e : Except ε α} {k : α → Except ε β}
    {b : β} (h : e >>= k = Except.ok b) :
    ∃ a, e = Except.ok a ∧ k a = Except.ok b := by
  cases e with
  | ok a => exact ⟨a, rfl, h⟩
  | error err => exact absurd h (by simp [Bind.bind, Except.bind])

/-- A successful `dictGet` means the key was present. -/
theorem dictGet_ok {α : Type} {key : String} {o : Option α} {v : α}
    (h : dictGet key o = Except.ok v) : o = some v := by
  cases o with
  | some w => simp only [dictGet, Except.ok.injEq] at h; rw [h]
  | none => simp [dictGet] at h

/-- A successful `listIdx` means the index was in range. -/
theorem listIdx_ok {α : Type} {l : List α} {i : Nat} {v : α}
    (h : listIdx l i = Except.ok v) : l.get? i = some v := by
  unfold listIdx at h
  cases hg : l.get? i with
  | some w => rw [hg] at h; simp only [Except.ok.injEq] at h; rw [h]
  | none => rw [hg] at h; cases h

/-- A successful `buildCurrentWeather` embeds the supplied air-quality
record unchanged, reports success-relevant rounded fields, and echoes the
unit. -/
theorem buildCurrentWeather_ok {loc : Location} {unit : String}
    {air : AirQuality} {current : CurrentData} {daily : DailyData}
    {cw : CurrentWeather}
    (h : buildCurrentWeather loc unit air current daily = Except.ok cw) :
    cw.air_quality = air ∧
    ∃ tv fv wv, current.temperature_2m = some tv ∧
      current.apparent_temperature = some fv ∧
      current.wind_speed_10m = some wv ∧
      cw.temperature = pyRound tv ∧ cw.feels_like = pyRound fv ∧
      cw.wind_speed = pyRound1 wv ∧ cw.unit = unit := by
  unfold buildCurrentWeather at h
  obtain ⟨tv, htv, h⟩ := except_bind_ok h
  obtain ⟨fv, hfv, h⟩ := except_bind_ok h
  obtain ⟨wc, hwc, h⟩ := except_bind_ok h
  obtain ⟨isd, hisd, h⟩ := except_bind_ok h
  obtain ⟨hum, hhum, h⟩ := except_bind_ok h
  obtain ⟨pres, hpres, h⟩ := except_bind_ok h
  obtain ⟨wv, hwv, h⟩ := except_bind_ok h
  obtain ⟨wd, hwd, h⟩ := except_bind_ok h
  obtain ⟨sr, hsr, h⟩ := except_bind_ok h
  obtain ⟨ss, hss, h⟩ := except_bind_ok h
  simp only [Except.ok.injEq] at h
  subst h
  exact ⟨rfl, tv, fv, wv, dictGet_ok htv, dictGet_ok hfv, dictGet_ok hwv,
    rfl, rfl, rfl, rfl⟩

/-- A successful `shapeAll` decomposes into its three successful builders,
and the result is the success record assembled from them. -/
theorem shapeAll_ok {unit : String} {loc : Location} {aqo : AQOutcome}
    {data : ForecastPayload} {r : WeatherResponse}
    (h : shapeAll unit loc aqo data = Except.ok r) :
    ∃ cb db hb cw hl fl,
      data.current = some cb ∧ data.daily = some db ∧ data.hourly = some hb ∧
      buildCurrentWeather loc unit (fetchAirQuality aqo) cb db = Except.ok cw ∧
      buildHourly hb = Except.ok hl ∧ buildDaily db = Except.ok fl ∧
      r = { success := true, error := none, current := some cw,
            hourly := some hl, forecast := some fl } := by
  unfold shapeAll at h
  obtain ⟨cb, hcb, h⟩ := except_bind_ok h
  obtain ⟨db, hdb, h⟩ := except_bind_ok h
  obtain ⟨hb, hhb, h⟩ := except_bind_ok h
  obtain ⟨cw, hcw, h⟩ := except_bind_ok h
  obtain ⟨hl, hhl, h⟩ := except_bind_ok h
  obtain ⟨fl, hfl, h⟩ := except_bind_ok h
  simp only [Except.ok.injEq] at h
  exact ⟨cb, db, hb, cw, hl, fl, dictGet_ok hcb, dictGet_ok hdb,
    dictGet_ok hhb, hcw, hhl, hfl, h.symm⟩

/-- C2: whenever the primary forecast call succeeds and its payload shapes
successfully, a failed air-quality call (timeout, connection failure,
malformed body — all collapsed by the bare `except`) still yields the
overall response with success = true, in which each of `aqi`, `pm10` and
`pm25` is the "N/A" sentinel; the air-quality failure never fails the
fetch. -/
theorem getWeatherData_aq_failure_best_effort (env : Env) (city unit : String)
    (loc : Location) (data : ForecastPayload) (r : WeatherResponse)
    (hgeo : env.geo = GeoResult.found loc)
    (hforecast : env.forecast = Net.ok data)
    (haq : env.aq = AQOutcome.fail)
    (hshape : shapeAll unit loc AQOutcome.fail data = Except.ok r) :
    get_weather_data env city unit = r ∧ r.success = true ∧
    ∃ cw, r.current = some cw ∧
      cw.air_quality =
        { aqi := PyVal.str "N/A", pm10 := PyVal.str "N/A",
          pm25 := PyVal.str "N/A" } := by
  obtain ⟨geo, forecast, aq⟩ := env
  simp only at hgeo hforecast haq
  subst hgeo; subst hforecast; subst haq
  obtain ⟨cb, db, hb, cw, hl, fl, _, _, _, hcw, _, _, hr⟩ := shapeAll_ok hshape
  refine ⟨?_, ?_, ?_⟩
  · simp only [get_weather_data, hshape]
  · rw [hr]
  · exact ⟨cw, by rw [hr], (buildCurrentWeather_ok hcw).1⟩

/-- Witness for C2: the concrete Springfield payload with a failed
air-quality call. -/
theorem getWeatherData_aq_failure_best_effort_witness :
    get_weather_data
        { geo := GeoResult.found locW, forecast := Net.ok dataW, aq := AQOutcome.fail }
        "Springfield" "celsius" = shapedW ∧
    shapedW.success = true ∧
    ∃ cw, shapedW.current = some cw ∧
      cw.air_quality =
        { aqi := PyVal.str "N/A", pm10 := PyVal.str "N/A",
          pm25 := PyVal.str "N/A" } :=
  getWeatherData_aq_failure_best_effort
    { geo := GeoResult.found locW, forecast := Net.ok dataW, aq := AQOutcome.fail }
    "Springfield" "celsius" locW dataW shapedW rfl rfl rfl (by rfl)

/-- A successful `mapM` over `Except` succeeds pointwise, in order. -/
theorem mapM_ok_forall2 {ε α β : Type} {f : α → Except ε β} :
    ∀ {l : List α} {ys : List β}, l.mapM f = Except.ok ys →
      List.Forall₂ (fun a b => f a = Except.ok b) l ys := by
  intro l
  induction l with
  | nil =>
      intro ys h
      simp only [List.mapM_nil, pure, Except.pure, Except.ok.injEq] at h
      subst h
      exact List.Forall₂.nil
  | cons a as ih =>
      intro ys h
      rw [List.mapM_cons] at h
      obtain ⟨b, hb, h⟩ := except_bind_ok h
      obtain ⟨bs, hbs, h⟩ := except_bind_ok h
      simp only [pure, Except.pure, Except.ok.injEq] at h
      subst h
      exact List.Forall₂.cons hb (ih hbs)

/-- A successful hourly build is the 24 loop iterations in order. -/
theorem buildHourly_ok {hb : HourlyData} {hl : List HourPoint}
    (h : buildHourly hb = Except.ok hl) :
    List.Forall₂ (fun i p => mkHourPoint hb i = Except.ok p)
      (List.range 24) hl :=
  mapM_ok_forall2 h

/-- A successful daily build is the loop over indices
`range(1, min(6, len(daily['time'])))` in order. -/
theorem buildDaily_ok {d : DailyData} {fl : List DayPoint}
    (h : buildDaily d = Except.ok fl) :
    ∃ ts, d.time = some ts ∧
      List.Forall₂ (fun i p => mkDayPoint d i = Except.ok p)
        (List.range' 1 (min 6 ts.length - 1)) fl := by
  unfold buildDaily at h
  obtain ⟨ts, hts, h⟩ := except_bind_ok h
  exact ⟨ts, dictGet_ok hts, mapM_ok_forall2 h⟩

/-- A successful hourly loop iteration reads entry `i` of the upstream
parallel arrays and rounds temperature to an integer and wind speed to one
decimal. -/
theorem mkHourPoint_ok {h : HourlyData} {i : Nat} {p : HourPoint}
    (hp : mkHourPoint h i = Except.ok p) :
    ∃ temps ws tv wv, h.temperature_2m = some temps ∧
      h.wind_speed_10m = some ws ∧ temps.get? i = some tv ∧
      ws.get? i = some wv ∧ p.temperature = pyRound tv ∧
      p.wind_speed = pyRound1 wv := by
  unfold mkHourPoint at hp
  obtain ⟨times, ha1, hp⟩ := except_bind_ok hp
  obtain ⟨tstr, ha2, hp⟩ := except_bind_ok hp
  obtain ⟨t, ha3, hp⟩ := except_bind_ok hp
  obtain ⟨temps, ha4, hp⟩ := except_bind_ok hp
  obtain ⟨temp, ha5, hp⟩ := except_bind_ok hp
  obtain ⟨codes, ha6, hp⟩ := except_bind_ok hp
  obtain ⟨code, ha7, hp⟩ := except_bind_ok hp
  obtain ⟨probs, ha8, hp⟩ := except_bind_ok hp
  obtain ⟨prob, ha9, hp⟩ := except_bind_ok hp
  obtain ⟨precs, ha10, hp⟩ := except_bind_ok hp
  obtain ⟨prec, ha11, hp⟩ := except_bind_ok hp
  obtain ⟨winds, ha12, hp⟩ := except_bind_ok hp
  obtain ⟨wind, ha13, hp⟩ := except_bind_ok hp
  simp only [Except.ok.injEq] at hp
  subst hp
  exact ⟨temps, winds, temp, wind, dictGet_ok ha4, dictGet_ok ha12,
    listIdx_ok ha5, listIdx_ok ha13, rfl, rfl⟩

/-- C3: whenever the upstream bundle shapes successfully and its daily
block covers a 7-day window, the response's hourly array is exactly the
first 24 hourly entries in upstream order (entry `i` built from upstream
index `i`), the forecast array has exactly 5 entries built from daily
indices 1 through 5 (index 0, today, is skipped), current temperature and
feels-like are rounded to the nearest integer (`pyRound`, Python's
round-half-even) and wind speeds to one decimal (`pyRound1`). -/
theorem shapeAll_counts_and_rounding
    (unit : String) (loc : Location) (aqo : AQOutcome) (data : ForecastPayload)
    (r : WeatherResponse) (hb : HourlyData) (db : DailyData) (ts : List String)
    (hshape : shapeAll unit loc aqo data = Except.ok r)
    (hhb : data.hourly = some hb)
    (hdb : data.daily = some db)
    (hts : db.time = some ts)
    (h7 : ts.length = 7) :
    (∃ hl, r.hourly = some hl ∧ hl.length = 24 ∧
      ∀ i : Nat, i < 24 → ∃ p, hl.get? i = some p ∧
        mkHourPoint hb i = Except.ok p ∧
        ∃ temps ws tv wv, hb.temperature_2m = some temps ∧
          hb.wind_speed_10m = some ws ∧ temps.get? i = some tv ∧
          ws.get? i = some wv ∧ p.temperature = pyRound tv ∧
          p.wind_speed = pyRound1 wv) ∧
    (∃ fl, r.forecast = some fl ∧ fl.length = 5 ∧
      ∀ j : Nat, j < 5 → ∃ p, fl.get? j = some p ∧
        mkDayPoint db (j + 1) = Except.ok p) ∧
    (∃ cw cb tv fv wv, r.current = some cw ∧ data.current = some cb ∧
      cb.temperature_2m = some tv ∧ cb.apparent_temperature = some fv ∧
      cb.wind_speed_10m = some wv ∧ cw.temperature = pyRound tv ∧
      cw.feels_like = pyRound fv ∧ cw.wind_speed = pyRound1 wv) := by
  obtain ⟨cb, db2, hb2, cw, hl, fl, hcb, hdb2, hhb2, hcw, hhl, hfl, hr⟩ :=
    shapeAll_ok hshape
  rw [hdb] at hdb2
  injection hdb2 with hdb2
  subst hdb2
  rw [hhb] at hhb2
  injection hhb2 with hhb2
  subst hhb2
  subst hr
  have F2h := buildHourly_ok hhl
  obtain ⟨ts2, hts2, F2d⟩ := buildDaily_ok hfl
  rw [hts] at hts2
  injection hts2 with hts2
  subst hts2
  rw [h7] at F2d
  have hlen24 : hl.length = 24 := by
    have := F2h.length_eq
    simpa using this.symm
  have hlen5 : fl.length = 5 := by
    have := F2d.length_eq
    simpa using this.symm
  refine ⟨⟨hl, rfl, hlen24, ?_⟩, ⟨fl, rfl, hlen5, ?_⟩, ?_⟩
  · intro i hi
    have hil : i < hl.length := by omega
    have hir : i < (List.range 24).length := by simpa using hi
    refine ⟨hl.get ⟨i, hil⟩, List.get?_eq_get hil, ?_, ?_⟩
    · have := F2h.get hir hil
      simpa using this
    · have hmk := F2h.get hir hil
      simp only [List.get_eq_getElem, List.getElem_range] at hmk
      exact mkHourPoint_ok hmk
  · intro j hj
    have hjl : j < fl.length := by omega
    have hjr : j < (List.range' 1 (min 6 7 - 1)).length := by
      simpa using hj
    refine ⟨fl.get ⟨j, hjl⟩, List.get?_eq_get hjl, ?_⟩
    have := F2d.get hjr hjl
    simp only [List.get_eq_getElem, List.getElem_range'] at this
    have hidx : 1 + 1 * j = j + 1 := by omega
    rwa [hidx] at this
  · obtain ⟨hair, tv, fv, wv, htv, hfv, hwv, hT, hF, hW, hU⟩ :=
      buildCurrentWeather_ok hcw
    exact ⟨cw, cb, tv, fv, wv, rfl, hcb, htv, hfv, hwv, hT, hF, hW⟩

/-- Witness for C3: the concrete Springfield payload (24 hourly entries,
7-day daily window) shapes to 24 hourly and 5 forecast entries with the
stated rounding. -/
theorem shapeAll_counts_and_rounding_witness :
    (∃ hl, shapedW.hourly = some hl ∧ hl.length = 24 ∧
      ∀ i : Nat, i < 24 → ∃ p, hl.get? i = some p ∧
        mkHourPoint hourlyW i = Except.ok p ∧
        ∃ temps ws tv wv, hourlyW.temperature_2m = some temps ∧
          hourlyW.wind_speed_10m = some ws ∧ temps.get? i = some tv ∧
          ws.get? i = some wv ∧ p.temperature = pyRound tv ∧
          p.wind_speed = pyRound1 wv) ∧
    (∃ fl, shapedW.forecast = some fl ∧ fl.length = 5 ∧
      ∀ j : Nat, j < 5 → ∃ p, fl.get? j = some p ∧
        mkDayPoint dailyW (j + 1) = Except.ok p) ∧
    (∃ cw cb tv fv wv, shapedW.current = some cw ∧ dataW.current = some cb ∧
      cb.temperature_2m = some tv ∧ cb.apparent_temperature = some fv ∧
      cb.wind_speed_10m = some wv ∧ cw.temperature = pyRound tv ∧
      cw.feels_like = pyRound fv ∧ cw.wind_speed = pyRound1 wv) :=
  shapeAll_counts_and_rounding "celsius" locW AQOutcome.fail dataW shapedW
    hourlyW dailyW
    ["2026-10-05", "2026-10-06", "2026-10-07", "2026-10-08",
     "2026-10-09", "2026-10-10", "2026-10-11"]
    (by rfl) rfl rfl rfl rfl

end WeatherApp
